import Mathlib

/-!
Verification development for the GameJam-2025 multiplayer relay server.

This file gives a shallow embedding, in Lean, of the session-and-connection
management core of the Go server: the spatial grid (package spatial), the
player and session state (package service), the identifier generator
(package utils) and the message handlers (package handlers).  Go maps are
modelled as functions into Option or as Finsets, Go float64 world
coordinates as rationals, and the nondeterministic random/clock inputs as
explicit oracle arguments.  Pointer aliasing between the registry and the
session objects mutated by the handlers is modelled by writing the updated
session value back into the registry at every mutation point.  Outbound
WriteMessage calls are collected into an explicit trace of attempted sends;
a send attempt to a player fails (as in Player.WriteMessage) exactly when
that player is marked disconnected.
-/

namespace GameRelay

/-- Model of spatial.Position: a 3D world position (Go float64 fields, modelled
as rationals). -/
structure Position where
  x : ℚ
  y : ℚ
  z : ℚ
  deriving DecidableEq

/-- Model of spatial.CellKey: an integer grid cell coordinate. -/
structure CellKey where
  X : ℤ
  Z : ℤ
  deriving DecidableEq

/-- Model of spatial.Grid: cells maps a cell key to the set of player IDs in
that cell (absent map entries and empty sets are identified), playerCells is
the inverse mapping. -/
structure Grid where
  cellSize : ℚ
  viewDistance : ℚ
  cells : CellKey → Finset String
  playerCells : String → Option CellKey

/-- Model of spatial.NewGrid. -/
def newGrid (cellSize viewDistance : ℚ) : Grid :=
  { cellSize := cellSize, viewDistance := viewDistance,
    cells := fun _ => ∅, playerCells := fun _ => none }

/-- Model of spatial.Grid.getCellKey: floor of x and z divided by the cell
size. -/
def Grid.getCellKey (g : Grid) (pos : Position) : CellKey :=
  { X := ⌊pos.x / g.cellSize⌋, Z := ⌊pos.z / g.cellSize⌋ }

/-- Model of spatial.Grid.UpdatePlayerPosition: no-op when the cell is
unchanged, otherwise remove from the old cell, add to the new cell and update
the inverse mapping. -/
def Grid.updatePlayerPosition (g : Grid) (playerID : String) (pos : Position) : Grid :=
  let newCell := g.getCellKey pos
  match g.playerCells playerID with
  | some oldCell =>
    if oldCell = newCell then g
    else
      { g with
        cells := fun c =>
          if c = oldCell then (g.cells oldCell).erase playerID
          else if c = newCell then insert playerID (g.cells c)
          else g.cells c,
        playerCells := fun q => if q = playerID then some newCell else g.playerCells q }
  | none =>
      { g with
        cells := fun c => if c = newCell then insert playerID (g.cells c) else g.cells c,
        playerCells := fun q => if q = playerID then some newCell else g.playerCells q }

/-- Model of spatial.Grid.RemovePlayer: remove from both mappings, no-op when
absent. -/
def Grid.removePlayer (g : Grid) (playerID : String) : Grid :=
  match g.playerCells playerID with
  | some cell =>
      { g with
        cells := fun c => if c = cell then (g.cells cell).erase playerID else g.cells c,
        playerCells := fun q => if q = playerID then none else g.playerCells q }
  | none => g

/-- Model of the cellRadius computation in spatial.Grid.GetNearbyPlayers:
ceiling of viewDistance divided by cellSize. -/
def Grid.cellRadius (g : Grid) : ℤ := ⌈g.viewDistance / g.cellSize⌉

/-- Offsets scanned by the nested loops in GetNearbyPlayers: the integers from
-r to r (empty when r is negative, as the Go loop body never runs then). -/
def offsetRange (r : ℤ) : List ℤ :=
  (List.range (2 * r + 1).toNat).map (fun i : ℕ => -r + (i : ℤ))

/-- Deterministic enumeration of a set of player IDs (Go iterates its maps in
arbitrary order; the claims only concern the resulting membership). -/
def idList (t : Finset String) : List String := t.sort (· ≤ ·)

/-- Model of spatial.Grid.GetNearbyPlayers: look up the caller's current cell
(the playerPos argument is unused by the Go code as well), scan all cells
within cellRadius in each direction, and collect the IDs found, excluding the
caller and duplicates. -/
def Grid.getNearbyPlayers (g : Grid) (playerID : String) (playerPos : Position) :
    List String :=
  match g.playerCells playerID with
  | none => []
  | some cell =>
    let r := g.cellRadius
    ((((offsetRange r).flatMap fun dx =>
        (offsetRange r).flatMap fun dz =>
          idList (g.cells { X := cell.X + dx, Z := cell.Z + dz })).filter
      (fun q => q ≠ playerID))).dedup

/-- Operations on a spatial grid, used to state invariants over arbitrary
operation sequences. -/
inductive GridOp where
  | upd (playerID : String) (pos : Position)
  | rem (playerID : String)

/-- Apply one grid operation. -/
def Grid.applyOp (g : Grid) : GridOp → Grid
  | .upd pid pos => g.updatePlayerPosition pid pos
  | .rem pid => g.removePlayer pid

/-- Apply a list of grid operations left to right. -/
def Grid.applyOps (g : Grid) (ops : List GridOp) : Grid := ops.foldl Grid.applyOp g

/-- Last position reported for a player by an operation sequence, cleared by a
subsequent removal. -/
def lastReport (ops : List GridOp) (q : String) : Option Position :=
  ops.foldl
    (fun acc op =>
      match op with
      | GridOp.upd p pos => if p = q then some pos else acc
      | GridOp.rem p => if p = q then none else acc)
    none

/-- Alphabet used by utils.GenerateSessionID: no 0, O, I, 1. -/
def sessionIDChars : List Char := "ABCDEFGHJKLMNPQRSTUVWXYZ23456789".toList

/-- Model of utils.GenerateSessionID: six characters drawn from
sessionIDChars.  The oracle draws gives the successive rand.Intn results; as
rand.Intn(32) ranges over 0..31, an arbitrary natural draw is reduced mod 32,
which covers exactly the possible random outcomes. -/
def generateSessionID (draws : Nat → Nat) : String :=
  String.mk ((List.range 6).map (fun i => sessionIDChars.getD (draws i % 32) 'A'))

/-- Model of service.Player: the per-connection mutable state.  The rotation
and modelRotation maps hold a single key y; a nil Go map is modelled as none.
The Conn handle is not modelled separately: a write fails exactly when the
player is disconnected. -/
structure Player where
  id : String
  username : String
  sessionId : String
  position : Position
  rotation : Option ℚ
  modelRotation : Option ℚ
  animation : String
  disconnected : Bool
  deriving DecidableEq

/-- Model of service.NewPlayer: position zero, rotation y at zero, animation
idle, not disconnected; the ModelRotation map is left nil. -/
def newPlayer (playerID : String) : Player :=
  { id := playerID, username := "", sessionId := "",
    position := { x := 0, y := 0, z := 0 },
    rotation := some 0,
    modelRotation := none,
    animation := "idle",
    disconnected := false }

/-- Public projection of a player, as produced by Player.ExportInfo. -/
structure PlayerInfo where
  id : String
  username : String
  position : Position
  rotation : Option ℚ
  modelRotation : Option ℚ
  animation : String
  deriving DecidableEq

/-- Model of service.Player.ExportInfo. -/
def Player.exportInfo (p : Player) : PlayerInfo :=
  { id := p.id, username := p.username, position := p.position,
    rotation := p.rotation, modelRotation := p.modelRotation, animation := p.animation }

/-- Model of service.Player.UpdateState: wholesale replacement of the four
presence fields. -/
def Player.updateState (p : Player) (position : Position)
    (rotation modelRotation : Option ℚ) (animation : String) : Player :=
  { p with position := position, rotation := rotation,
           modelRotation := modelRotation, animation := animation }

/-- Model of service.GameSession.  Membership is the set of player IDs (the
Player values live in the world's player heap). -/
structure GameSession where
  id : String
  name : String
  creatorId : String
  players : Finset String
  playerCount : Nat
  createdAt : Nat
  started : Bool
  grid : Grid

/-- Model of service.NewGameSession: the fresh session ID and creation time
are oracle arguments (rand / clock); grid of 50-unit cells and 100-unit view
distance. -/
def newGameSession (sessionID name creatorID : String) (now : Nat) : GameSession :=
  { id := sessionID, name := name, creatorId := creatorID,
    players := ∅, playerCount := 0, createdAt := now, started := false,
    grid := newGrid 50 100 }

/-- Public projection of a session, as produced by GameSession.ExportInfo. -/
structure SessionInfo where
  id : String
  name : String
  creatorId : String
  playerCount : Nat
  createdAt : Nat
  started : Bool
  deriving DecidableEq

/-- Model of service.GameSession.ExportInfo. -/
def GameSession.exportInfo (s : GameSession) : SessionInfo :=
  { id := s.id, name := s.name, creatorId := s.creatorId,
    playerCount := s.playerCount, createdAt := s.createdAt, started := s.started }

/-- Model of service.GameSession.GetPlayerCount: returns the stored count. -/
def GameSession.getPlayerCount (s : GameSession) : Nat := s.playerCount

/-- Model of service.GameSession.Start. -/
def GameSession.start (s : GameSession) : GameSession := { s with started := true }

/-- Outbound wire messages, mirroring the payloads built in internal/events. -/
inductive Msg where
  | updateSessionList (sessions : List SessionInfo)
  | sessionCreated (sessionId sessionName : String)
  | sessionJoined (sessionId playerId : String) (players : Finset PlayerInfo) (started : Bool)
  | sessionStarted (sessionId : String)
  | playerJoined (player : PlayerInfo)
  | playerLeft (id : String)
  | playerUpdate (id : String) (position : Position)
      (rotation modelRotation : Option ℚ) (animation : String)
  | playSound (id soundType : String) (position : Position)
  | errorMessage (message : String)
  deriving DecidableEq

/-- Model of events.FormatPlayerLeft. -/
def FormatPlayerLeft (playerID : String) : Msg := Msg.playerLeft playerID

/-- Model of events.FormatUpdateSessionList. -/
def FormatUpdateSessionList (sessions : List SessionInfo) : Msg :=
  Msg.updateSessionList sessions

/-- Model of events.FormatSessionNotFound. -/
def FormatSessionNotFound : Msg :=
  Msg.errorMessage "Session not found. Please check the ID and try again."

/-- Model of events.FormatCreateSession. -/
def FormatCreateSession (sessionID sessionName : String) : Msg :=
  Msg.sessionCreated sessionID sessionName

/-- Modelled from the spec: the events.FormatJoinSession revision that takes
the session started flag is missing from the sources (the events.go copy in
the sources is a three-argument revision, while its caller
GameSession.AddPlayer passes four arguments and the browser client reads
data.started); per the spec the sessionJoined payload carries sessionId,
playerId, the players snapshot, and started. -/
def FormatJoinSession (sessionID playerID : String) (existingPlayers : Finset PlayerInfo)
    (started : Bool) : Msg :=
  Msg.sessionJoined sessionID playerID existingPlayers started

/-- Model of events.FormatPlayerJoined. -/
def FormatPlayerJoined (player : PlayerInfo) : Msg := Msg.playerJoined player

/-- Model of events.FormatPlayerUpdated. -/
def FormatPlayerUpdated (playerID : String) (position : Position)
    (rotation modelRotation : Option ℚ) (animation : String) : Msg :=
  Msg.playerUpdate playerID position rotation modelRotation animation

/-- Model of events.FormatPlaySound. -/
def FormatPlaySound (playerID soundType : String) (position : Position) : Msg :=
  Msg.playSound playerID soundType position

/-- Modelled from the spec: events.FormatSessionStarted is called by
handleStartSession but its definition is missing from the sources; per the
spec the sessionStarted payload carries the session ID. -/
def FormatSessionStarted (sessionID : String) : Msg := Msg.sessionStarted sessionID

/-- An attempted outbound send: recipient player ID and payload. -/
structure Send where
  recipient : String
  msg : Msg
  deriving DecidableEq

/-- Model of service.GameState: the Global Registry.  lobbyPlayers is the set
of lobby player IDs, sessions the registry of sessions (an association list
standing for the Go map), and players the heap of Player objects reachable by
ID (Go pointers). -/
structure GameState where
  lobbyPlayers : Finset String
  sessions : List (String × GameSession)
  players : String → Player

/-- Lookup in the session registry. -/
def lookupSession : List (String × GameSession) → String → Option GameSession
  | [], _ => none
  | (k, v) :: rest, sid => if k = sid then some v else lookupSession rest sid

/-- Go map assignment on the registry: replace in place or append. -/
def setSession : List (String × GameSession) → String → GameSession →
    List (String × GameSession)
  | [], sid, s => [(sid, s)]
  | (k, v) :: rest, sid, s =>
      if k = sid then (sid, s) :: rest else (k, v) :: setSession rest sid s

/-- Write-back of a mutated session object: updates the registry entry when
present and does nothing otherwise (a session object not yet registered is
mutated without the registry noticing, as with Go pointers). -/
def updateSessionEntry : List (String × GameSession) → String → GameSession →
    List (String × GameSession)
  | [], _, _ => []
  | (k, v) :: rest, sid, s =>
      if k = sid then (sid, s) :: rest else (k, v) :: updateSessionEntry rest sid s

/-- Go map delete on the registry. -/
def eraseSession (l : List (String × GameSession)) (sid : String) :
    List (String × GameSession) :=
  l.filter (fun kv => kv.1 ≠ sid)

/-- Pointwise modification of one player object in the heap. -/
def GameState.modifyPlayer (w : GameState) (playerID : String) (f : Player → Player) :
    GameState :=
  { w with players := fun q => if q = playerID then f (w.players q) else w.players q }

/-- Model of service.GameState.AddLobbyPlayer. -/
def GameState.addLobbyPlayer (w : GameState) (playerID : String) : GameState :=
  { w with lobbyPlayers := insert playerID w.lobbyPlayers }

/-- Model of service.GameState.RemoveLobbyPlayer. -/
def GameState.removeLobbyPlayer (w : GameState) (playerID : String) : GameState :=
  { w with lobbyPlayers := w.lobbyPlayers.erase playerID }

/-- Model of service.GameState.ListSessions. -/
def GameState.listSessions (w : GameState) : List SessionInfo :=
  w.sessions.map (fun kv => kv.2.exportInfo)

/-- Model of service.GameState.GetSession. -/
def GameState.getSession (w : GameState) (sid : String) : Option GameSession :=
  lookupSession w.sessions sid

/-- Model of service.GameState.Broadcast: one attempted send per lobby
player. -/
def GameState.broadcast (w : GameState) (m : Msg) : List Send :=
  (idList w.lobbyPlayers).map (fun q => { recipient := q, msg := m })

/-- Model of service.GameState.AddSession: register, then broadcast the
updated roster to the lobby. -/
def GameState.addSession (w : GameState) (s : GameSession) : GameState × List Send :=
  let w1 : GameState := { w with sessions := setSession w.sessions s.id s }
  (w1, w1.broadcast (FormatUpdateSessionList w1.listSessions))

/-- Model of service.GameState.RemoveSession: delete, then broadcast the
updated roster to the lobby. -/
def GameState.removeSession (w : GameState) (sid : String) : GameState × List Send :=
  let w1 : GameState := { w with sessions := eraseSession w.sessions sid }
  (w1, w1.broadcast (FormatUpdateSessionList w1.listSessions))

/-- Registry view of a session object mutation (Go pointer aliasing). -/
def GameState.writeBackSession (w : GameState) (s : GameSession) : GameState :=
  { w with sessions := updateSessionEntry w.sessions s.id s }

/-- Model of service.GameSession.Broadcast: one attempted send per member. -/
def GameSession.broadcast (s : GameSession) (m : Msg) : List Send :=
  (idList s.players).map (fun q => { recipient := q, msg := m })

/-- Model of service.GameSession.BroadcastToPlayers: one attempted send per
listed ID that is a member; unknown IDs are skipped. -/
def GameSession.broadcastToPlayers (s : GameSession) (m : Msg) (ids : List String) :
    List Send :=
  ids.filterMap (fun q => if q ∈ s.players then some { recipient := q, msg := m } else none)

/-- Model of service.GameSession.ExportPlayerInfos: public info of every
member (a set, as Go map iteration order is arbitrary). -/
def GameSession.exportPlayerInfos (s : GameSession) (w : GameState) : Finset PlayerInfo :=
  s.players.image (fun q => (w.players q).exportInfo)

/-- Model of service.GameSession.AddPlayer: snapshot existing members, insert
and recount, drop the joiner from the lobby, send the joiner the sessionJoined
confirmation (aborting the broadcasts if that send fails, i.e. if the joiner
is disconnected), then broadcast playerJoined to the members and to the
lobby. -/
def GameSession.addPlayer (w : GameState) (s : GameSession) (p : String) :
    GameSession × GameState × List Send :=
  let existingPlayers := s.exportPlayerInfos w
  let players1 := insert p s.players
  let s1 : GameSession := { s with players := players1, playerCount := players1.card }
  let w1 := (w.writeBackSession s1).removeLobbyPlayer p
  let joinedMsg : Send :=
    { recipient := p, msg := FormatJoinSession s.id p existingPlayers s1.started }
  if (w.players p).disconnected = true then
    (s1, w1, [joinedMsg])
  else
    let payload := FormatPlayerJoined ((w1.players p).exportInfo)
    (s1, w1, joinedMsg :: (s1.broadcast payload ++ w1.broadcast payload))

/-- Model of service.GameSession.RemovePlayer: drop from membership and
recount; when the creator leaves a not-started session, delete the session
from the registry and stop; otherwise broadcast playerLeft to the remaining
members and to the lobby. -/
def GameSession.removePlayer (w : GameState) (s : GameSession) (playerID : String) :
    GameSession × GameState × List Send :=
  let players1 := s.players.erase playerID
  let s1 : GameSession := { s with players := players1, playerCount := players1.card }
  let w1 := w.writeBackSession s1
  if s.creatorId = playerID ∧ s.started = false then
    let r := w1.removeSession s.id
    (s1, r.1, r.2)
  else
    let payload := FormatPlayerLeft playerID
    (s1, w1, s1.broadcast payload ++ w1.broadcast payload)

/-- Model of service.Player.SetUsername acting on the heap. -/
def GameState.setUsername (w : GameState) (playerID username : String) : GameState :=
  w.modifyPlayer playerID (fun p => { p with username := username })

/-- Recording of the player's session ID, the second step of
service.Player.JoinSession. -/
def GameState.setSessionId (w : GameState) (playerID sid : String) : GameState :=
  w.modifyPlayer playerID (fun p => { p with sessionId := sid })

/-- Model of Player.CloseConnection followed by Player.MarkDisconnected: the
flag is set, never cleared. -/
def GameState.markDisconnected (w : GameState) (playerID : String) : GameState :=
  w.modifyPlayer playerID (fun p => { p with disconnected := true })

/-- Model of service.Player.UpdateState acting on the heap. -/
def GameState.updatePlayerState (w : GameState) (playerID : String) (position : Position)
    (rotation modelRotation : Option ℚ) (animation : String) : GameState :=
  w.modifyPlayer playerID (fun p => p.updateState position rotation modelRotation animation)

/-- Model of service.Player.GetSession: the player's recorded session, if the
recorded ID is nonempty and still registered. -/
def GameState.playerSession (w : GameState) (playerID : String) : Option GameSession :=
  let sid := (w.players playerID).sessionId
  if sid = "" then none else w.getSession sid

/-- Model of handlers.handleListSessions. -/
def handleListSessions (w : GameState) (playerID : String) : GameState × List Send :=
  (w, [{ recipient := playerID, msg := FormatUpdateSessionList w.listSessions }])

/-- Model of handlers.handleCreateSession (the revision with creator
auto-join): set the username when supplied, create the session, have the
creator join it, then register it. -/
def handleCreateSession (w : GameState) (playerID : String)
    (sessionName username newSessionID : String) (now : Nat) : GameState × List Send :=
  let w1 := if username ≠ "" then w.setUsername playerID username else w
  let s := newGameSession newSessionID sessionName playerID now
  let r1 := GameSession.addPlayer w1 s playerID
  let w3 := r1.2.1.setSessionId playerID s.id
  let r2 := w3.addSession r1.1
  (r2.1, r1.2.2 ++ r2.2)

/-- Model of handlers.handleJoinSession: not-found error to the sender only,
otherwise set username and join. -/
def handleJoinSession (w : GameState) (playerID sessionID username : String) :
    GameState × List Send :=
  match w.getSession sessionID with
  | none => (w, [{ recipient := playerID, msg := FormatSessionNotFound }])
  | some s =>
    let w1 := w.setUsername playerID username
    let r := GameSession.addPlayer w1 s playerID
    (r.2.1.setSessionId playerID s.id, r.2.2)

/-- Model of handlers.handleStartSession. -/
def handleStartSession (w : GameState) (playerID sessionID : String) :
    GameState × List Send :=
  match w.getSession sessionID with
  | none => (w, [{ recipient := playerID, msg := FormatSessionNotFound }])
  | some s =>
    if s.creatorId = playerID then
      let s1 := s.start
      let w1 := w.writeBackSession s1
      (w1, s1.broadcast (FormatSessionStarted s.id))
    else
      (w, [{ recipient := playerID,
             msg := Msg.errorMessage "Only the session creator can start the game" }])

/-- Model of handlers.handleUpdate: write-through to the player state, update
the spatial grid, and broadcast the update to the nearby players only. -/
def handleUpdate (w : GameState) (playerID : String) (position : Position)
    (rotation modelRotation : Option ℚ) (animation : String) : GameState × List Send :=
  let w1 := w.updatePlayerState playerID position rotation modelRotation animation
  match w1.playerSession playerID with
  | none => (w1, [])
  | some s =>
    let g1 := s.grid.updatePlayerPosition playerID position
    let s1 : GameSession := { s with grid := g1 }
    let w2 := w1.writeBackSession s1
    let nearby := g1.getNearbyPlayers playerID position
    (w2, s1.broadcastToPlayers
      (FormatPlayerUpdated playerID position rotation modelRotation animation) nearby)

/-- Model of handlers.handleSound: unconditional session-wide broadcast. -/
def handleSound (w : GameState) (playerID soundType : String) (position : Position) :
    GameState × List Send :=
  match w.playerSession playerID with
  | none => (w, [])
  | some s => (w, s.broadcast (FormatPlaySound playerID soundType position))

/-- Model of handlers.HandleDisconnect: early return when already
disconnected; otherwise close and mark disconnected, leave the grid and the
session (which deletes an idling session abandoned by its creator), clean up
an emptied session, or leave the lobby when sessionless. -/
def handleDisconnect (w : GameState) (playerID : String) : GameState × List Send :=
  if (w.players playerID).disconnected = true then (w, [])
  else
    let sOpt := w.playerSession playerID
    let w1 := w.markDisconnected playerID
    match sOpt with
    | some s =>
      let s1 : GameSession := { s with grid := s.grid.removePlayer playerID }
      let w2 := w1.writeBackSession s1
      let r := GameSession.removePlayer w2 s1 playerID
      if r.1.players = ∅ then
        let r2 := r.2.1.removeSession r.1.id
        (r2.1, r.2.2 ++ r2.2)
      else (r.2.1, r.2.2)
    | none => (w1.removeLobbyPlayer playerID, [])

/-- Decoded inbound client messages, mirroring the type dispatch of
handlers.handleMessage; the createSession constructor carries the random
session ID and clock reading as oracles. -/
inductive ClientMessage where
  | listSessions
  | createSession (sessionName username newSessionID : String) (now : Nat)
  | joinSession (sessionId username : String)
  | startSession (sessionId : String)
  | update (position : Position) (rotation modelRotation : Option ℚ) (animation : String)
  | sound (soundType : String) (position : Position)

/-- Model of handlers.handleMessage: route to the matching handler. -/
def handleMessage (w : GameState) (playerID : String) :
    ClientMessage → GameState × List Send
  | .listSessions => handleListSessions w playerID
  | .createSession n u sid now => handleCreateSession w playerID n u sid now
  | .joinSession sid u => handleJoinSession w playerID sid u
  | .startSession sid => handleStartSession w playerID sid
  | .update pos rot mrot anim => handleUpdate w playerID pos rot mrot anim
  | .sound st pos => handleSound w playerID st pos

/-- One server-side operation: an inbound message handled on behalf of a
player, or a disconnect signal for a player. -/
inductive ServerOp where
  | message (playerID : String) (msg : ClientMessage)
  | disconnect (playerID : String)

/-- Step of the whole server state under one operation. -/
def stepWorld (w : GameState) : ServerOp → GameState × List Send
  | .message pid m => handleMessage w pid m
  | .disconnect pid => handleDisconnect w pid

/-- Membership operations on one session, used to state the player-count
invariant over arbitrary sequences. -/
inductive SessionOp where
  | add (playerID : String)
  | remove (playerID : String)

/-- Apply a sequence of AddPlayer/RemovePlayer operations to a session,
threading the world state. -/
def applySessionOps (w : GameState) (s : GameSession) :
    List SessionOp → GameState × GameSession
  | [] => (w, s)
  | op :: rest =>
    match op with
    | .add pid =>
      let r := GameSession.addPlayer w s pid
      applySessionOps r.2.1 r.1 rest
    | .remove pid =>
      let r := GameSession.removePlayer w s pid
      applySessionOps r.2.1 r.1 rest

/-- One step of the ghost last-reported-position map alongside a grid
operation. -/
def reportStep (f : String → Option Position) : GridOp → String → Option Position
  | GridOp.upd p pos => fun q => if p = q then some pos else f q
  | GridOp.rem p => fun q => if p = q then none else f q

/-- Ghost last-reported-position map after a sequence of grid operations. -/
def reports (f : String → Option Position) (ops : List GridOp) : String → Option Position :=
  ops.foldl reportStep f

/-- Grid well-formedness relative to a ghost map of last reported positions:
the inverse mapping records exactly the cell of the last reported position,
and a player ID is a member of a cell set exactly when it is the cell of its
last reported position (so each tracked player is in exactly one cell and a
removed player is nowhere). -/
def GridInv (g : Grid) (f : String → Option Position) : Prop :=
  (∀ q, g.playerCells q = (f q).map g.getCellKey)
  ∧ (∀ q c, q ∈ g.cells c ↔ ∃ pos, f q = some pos ∧ c = g.getCellKey pos)

/-- Fresh player heap, for concrete examples. -/
def freshHeap : String → Player := fun q => newPlayer q

/-- Player heap whose players are all marked disconnected, for concrete
examples. -/
def downHeap : String → Player := fun q => { newPlayer q with disconnected := true }

/-- Example world: one lobby player, no sessions. -/
def sampleWorld : GameState :=
  { lobbyPlayers := {"lob1"}, sessions := [], players := freshHeap }

/-- Example idling session with its creator and one guest as members. -/
def sampleSession : GameSession :=
  { id := "ABCDEF", name := "Alpha", creatorId := "host", players := {"host", "guest"},
    playerCount := 2, createdAt := 0, started := false, grid := newGrid 50 100 }

/-- Example world holding the example session. -/
def sampleWorldWithSession : GameState :=
  { lobbyPlayers := {"lob1"}, sessions := [("ABCDEF", sampleSession)], players := freshHeap }

/-- Example world whose players are all disconnected. -/
def sampleDownWorld : GameState :=
  { lobbyPlayers := ∅, sessions := [], players := downHeap }

/-- Example grid tracking players a and b in the origin cell. -/
def sampleGrid : Grid :=
  { cellSize := 50, viewDistance := 100,
    cells := fun c => if c = { X := 0, Z := 0 } then {"a", "b"} else ∅,
    playerCells := fun q =>
      if q = "a" then some { X := 0, Z := 0 }
      else if q = "b" then some { X := 0, Z := 0 }
      else none }

/-! Helper lemmas about the registry association list and broadcasts. -/

theorem lookup_eraseSession_self (l : List (String × GameSession)) (sid : String) :
    lookupSession (eraseSession l sid) sid = none := by
  induction l with
  | nil => rfl
  | cons kv rest ih =>
    obtain ⟨k, v⟩ := kv
    by_cases h : k = sid
    · simpa [eraseSession, List.filter_cons, h] using ih
    · simpa [eraseSession, List.filter_cons, h, lookupSession] using ih

theorem lookup_setSession_self (l : List (String × GameSession)) (sid : String)
    (s : GameSession) : lookupSession (setSession l sid s) sid = some s := by
  induction l with
  | nil => simp [setSession, lookupSession]
  | cons kv rest ih =>
    obtain ⟨k, v⟩ := kv
    by_cases h : k = sid
    · simp [setSession, h, lookupSession]
    · simp [setSession, h, lookupSession, ih]

theorem mem_broadcast_lobby (w : GameState) (m : Msg) (q : String)
    (h : q ∈ w.lobbyPlayers) : Send.mk q m ∈ w.broadcast m := by
  unfold GameState.broadcast idList
  exact List.mem_map.2 ⟨q, (Finset.mem_sort _).2 h, rfl⟩

theorem mem_broadcast_session (s : GameSession) (m : Msg) (q : String)
    (h : q ∈ s.players) : Send.mk q m ∈ s.broadcast m := by
  unfold GameSession.broadcast idList
  exact List.mem_map.2 ⟨q, (Finset.mem_sort _).2 h, rfl⟩

theorem msg_of_mem_broadcast_lobby (w : GameState) (m : Msg) (e : Send)
    (h : e ∈ w.broadcast m) : e.msg = m := by
  unfold GameState.broadcast at h
  obtain ⟨q, _, rfl⟩ := List.mem_map.1 h
  rfl

theorem addPlayer_fst (w : GameState) (s : GameSession) (p : String) :
    (GameSession.addPlayer w s p).1 =
      { s with players := insert p s.players, playerCount := (insert p s.players).card } := by
  unfold GameSession.addPlayer
  cases h : (w.players p).disconnected <;> simp [h]

theorem addPlayer_world (w : GameState) (s : GameSession) (p : String) :
    (GameSession.addPlayer w s p).2.1 =
      (w.writeBackSession
        { s with players := insert p s.players,
                 playerCount := (insert p s.players).card }).removeLobbyPlayer p := by
  unfold GameSession.addPlayer
  cases h : (w.players p).disconnected <;> simp [h]

theorem removePlayer_fst (w : GameState) (s : GameSession) (pid : String) :
    (GameSession.removePlayer w s pid).1 =
      { s with players := s.players.erase pid,
               playerCount := (s.players.erase pid).card } := by
  unfold GameSession.removePlayer
  by_cases h : s.creatorId = pid ∧ s.started = false <;> simp [h]

/-! Claim theorems. -/

/-- C9: every string produced by the session ID generator has exactly six
characters and never contains the visually ambiguous characters 0, O, 1, I,
whatever the random draws are. -/
theorem generateSessionID_spec (draws : Nat → Nat) :
    (generateSessionID draws).length = 6
    ∧ ∀ ch ∈ (generateSessionID draws).toList,
        ch ≠ '0' ∧ ch ≠ 'O' ∧ ch ≠ '1' ∧ ch ≠ 'I' := by
  have hall : ∀ m : Fin 32,
      sessionIDChars.getD (m : Nat) 'A' ≠ '0'
      ∧ sessionIDChars.getD (m : Nat) 'A' ≠ 'O'
      ∧ sessionIDChars.getD (m : Nat) 'A' ≠ '1'
      ∧ sessionIDChars.getD (m : Nat) 'A' ≠ 'I' := by decide
  constructor
  · show ((List.range 6).map (fun i => sessionIDChars.getD (draws i % 32) 'A')).length = 6
    simp
  · intro ch hch
    have hm : ch ∈ (List.range 6).map (fun i => sessionIDChars.getD (draws i % 32) 'A') := hch
    obtain ⟨i, _, rfl⟩ := List.mem_map.1 hm
    exact hall ⟨draws i % 32, Nat.mod_lt _ (by norm_num)⟩

/-- C10: a freshly constructed player starts at position zero, rotation y
zero, animation idle, empty username and session ID, not disconnected, and
its modelRotation map is left nil, so its exported info (used for the
playerJoined payload) carries a null modelRotation field. -/
theorem newPlayer_spec (playerID : String) :
    (newPlayer playerID).position = { x := 0, y := 0, z := 0 }
    ∧ (newPlayer playerID).rotation = some 0
    ∧ (newPlayer playerID).animation = "idle"
    ∧ (newPlayer playerID).username = ""
    ∧ (newPlayer playerID).sessionId = ""
    ∧ (newPlayer playerID).disconnected = false
    ∧ (newPlayer playerID).modelRotation = none
    ∧ ((newPlayer playerID).exportInfo).modelRotation = none
    ∧ FormatPlayerJoined ((newPlayer playerID).exportInfo) =
        Msg.playerJoined ((newPlayer playerID).exportInfo) :=
  ⟨rfl, rfl, rfl, rfl, rfl, rfl, rfl, rfl, rfl⟩

/-- C8: joining a session whose ID is not registered sends exactly one error
message, to the requester only, and leaves the whole world state (registry,
sessions, player fields) unchanged. -/
theorem handleJoinSession_not_found (w : GameState) (playerID sessionID username : String)
    (h : w.getSession sessionID = none) :
    handleJoinSession w playerID sessionID username =
      (w, [{ recipient := playerID, msg := FormatSessionNotFound }]) := by
  unfold handleJoinSession
  rw [h]

/-- C8 witness: a concrete world with no sessions. -/
theorem handleJoinSession_not_found_witness :
    sampleWorld.getSession "ZZZZZZ" = none
    ∧ handleJoinSession sampleWorld "p1" "ZZZZZZ" "u" =
        (sampleWorld, [{ recipient := "p1", msg := FormatSessionNotFound }]) :=
  ⟨rfl, handleJoinSession_not_found sampleWorld "p1" "ZZZZZZ" "u" rfl⟩

/-- C3: the first message AddPlayer emits is the sessionJoined confirmation
to the joiner, carrying the session ID, the joiner's player ID, the snapshot
of the members present before the joiner was inserted, and the session's
started flag. -/
theorem addPlayer_sessionJoined_message (w : GameState) (s : GameSession) (p : String) :
    (GameSession.addPlayer w s p).2.2.head? =
      some { recipient := p,
             msg := Msg.sessionJoined s.id p (s.exportPlayerInfos w) s.started } := by
  unfold GameSession.addPlayer
  cases h : (w.players p).disconnected <;> simp [h, FormatJoinSession]

theorem getSession_addSession_of_id (w : GameState) (s : GameSession) (sid : String)
    (h : s.id = sid) : (w.addSession s).1.getSession sid = some s := by
  subst h
  unfold GameState.addSession GameState.getSession
  exact lookup_setSession_self _ _ _

theorem username_setSessionId (w : GameState) (pid sid q : String) :
    ((w.setSessionId pid sid).players q).username = (w.players q).username := by
  unfold GameState.setSessionId GameState.modifyPlayer
  by_cases h : q = pid <;> simp [h]

theorem players_addPlayer (w : GameState) (s : GameSession) (p : String) :
    (GameSession.addPlayer w s p).2.1.players = w.players := by
  rw [addPlayer_world]
  rfl

theorem username_setUsername_self (w : GameState) (pid u : String) :
    ((w.setUsername pid u).players pid).username = u := by
  unfold GameState.setUsername GameState.modifyPlayer
  simp

/-- C6: after any sequence of AddPlayer/RemovePlayer operations on a freshly
created session, the stored playerCount equals the size of the membership
set, and GetPlayerCount returns that size. -/
theorem playerCount_invariant (w : GameState) (sessionID name creatorID : String)
    (now : Nat) (ops : List SessionOp) :
    ((applySessionOps w (newGameSession sessionID name creatorID now) ops).2).playerCount
      = ((applySessionOps w (newGameSession sessionID name creatorID now) ops).2).players.card
    ∧ ((applySessionOps w (newGameSession sessionID name creatorID now) ops).2).getPlayerCount
      = ((applySessionOps w (newGameSession sessionID name creatorID now) ops).2).players.card := by
  have key : ∀ (ops : List SessionOp) (w : GameState) (s : GameSession),
      s.playerCount = s.players.card →
      ((applySessionOps w s ops).2).playerCount = ((applySessionOps w s ops).2).players.card := by
    intro ops
    induction ops with
    | nil => intro w s h; exact h
    | cons op rest ih =>
      intro w s h
      cases op with
      | add pid =>
        simp only [applySessionOps]
        exact ih _ _ (by rw [addPlayer_fst])
      | remove pid =>
        simp only [applySessionOps]
        exact ih _ _ (by rw [removePlayer_fst])
  exact ⟨key _ _ _ rfl, key _ _ _ rfl⟩

/-- C1: when the creator leaves a not-started session, RemovePlayer deletes
the session from the registry and sends no playerLeft broadcast; otherwise it
removes the player from the membership and sends the playerLeft event to each
remaining member and to each lobby player. -/
theorem removePlayer_spec (w : GameState) (s : GameSession) (playerID : String) :
    ((s.creatorId = playerID ∧ s.started = false) →
      lookupSession ((GameSession.removePlayer w s playerID).2.1).sessions s.id = none
      ∧ ∀ e ∈ (GameSession.removePlayer w s playerID).2.2, ∀ q, e.msg ≠ Msg.playerLeft q)
    ∧ (¬(s.creatorId = playerID ∧ s.started = false) →
      ((GameSession.removePlayer w s playerID).1).players = s.players.erase playerID
      ∧ (∀ q ∈ s.players.erase playerID,
          Send.mk q (Msg.playerLeft playerID) ∈ (GameSession.removePlayer w s playerID).2.2)
      ∧ ∀ q ∈ w.lobbyPlayers,
          Send.mk q (Msg.playerLeft playerID) ∈ (GameSession.removePlayer w s playerID).2.2) := by
  constructor
  · intro hcond
    simp only [GameSession.removePlayer]
    rw [if_pos hcond]
    constructor
    · exact lookup_eraseSession_self _ _
    · intro e he q
      have hm := msg_of_mem_broadcast_lobby _ _ _ he
      rw [hm]
      simp [FormatUpdateSessionList]
  · intro hcond
    simp only [GameSession.removePlayer]
    rw [if_neg hcond]
    refine ⟨rfl, ?_, ?_⟩
    · intro q hq
      exact List.mem_append.2 (Or.inl (mem_broadcast_session _ _ _ hq))
    · intro q hq
      exact List.mem_append.2 (Or.inr (mem_broadcast_lobby _ _ _ hq))

/-- C1 witness: the creator of the concrete idling session leaves; the
session is gone from the registry and no playerLeft is sent. -/
theorem removePlayer_spec_witness :
    lookupSession
        ((GameSession.removePlayer sampleWorldWithSession sampleSession "host").2.1).sessions
        "ABCDEF" = none
    ∧ ∀ e ∈ (GameSession.removePlayer sampleWorldWithSession sampleSession "host").2.2,
        ∀ q, e.msg ≠ Msg.playerLeft q :=
  (removePlayer_spec sampleWorldWithSession sampleSession "host").1 ⟨rfl, rfl⟩

/-- C2: after handleCreateSession returns, the new session is registered in
the Global Registry with the creator as a member, and the creator's username
has been set when one was supplied in the message. -/
theorem handleCreateSession_spec (w : GameState)
    (playerID sessionName username newSessionID : String) (now : Nat) :
    (∃ s1,
      (handleCreateSession w playerID sessionName username newSessionID now).1.getSession
          newSessionID = some s1
      ∧ playerID ∈ s1.players)
    ∧ (username ≠ "" →
      ((handleCreateSession w playerID sessionName username newSessionID now).1.players
          playerID).username = username) := by
  simp only [handleCreateSession]
  constructor
  · exact ⟨_, getSession_addSession_of_id _ _ _ (by rw [addPlayer_fst]; rfl),
      by rw [addPlayer_fst]; exact Finset.mem_insert_self _ _⟩
  · intro hu
    have h1 : ∀ (wa : GameState) (sa : GameSession),
        ((wa.addSession sa).1.players playerID).username =
          (wa.players playerID).username := fun _ _ => rfl
    rw [h1, username_setSessionId, players_addPlayer, if_pos hu]
    exact username_setUsername_self _ _ _

/-- C2 witness: a concrete createSession with a supplied username. -/
theorem handleCreateSession_spec_witness :
    ("alice" : String) ≠ ""
    ∧ ((handleCreateSession sampleWorld "p1" "Alpha" "alice" "ABCDEF" 7).1.players
        "p1").username = "alice" :=
  ⟨by decide,
   (handleCreateSession_spec sampleWorld "p1" "Alpha" "alice" "ABCDEF" 7).2 (by decide)⟩

theorem disc_modifyPlayer (w : GameState) (pid : String) (f : Player → Player)
    (hf : ∀ p, p.disconnected = true → (f p).disconnected = true) (q : String)
    (h : (w.players q).disconnected = true) :
    ((w.modifyPlayer pid f).players q).disconnected = true := by
  by_cases hq : q = pid
  · subst hq
    simp only [GameState.modifyPlayer, if_pos rfl]
    exact hf _ h
  · simp only [GameState.modifyPlayer, if_neg hq]
    exact h

theorem players_removePlayer (w : GameState) (s : GameSession) (pid : String) :
    (GameSession.removePlayer w s pid).2.1.players = w.players := by
  simp only [GameSession.removePlayer]
  by_cases hc : s.creatorId = pid ∧ s.started = false
  · rw [if_pos hc]; rfl
  · rw [if_neg hc]; rfl

theorem disc_setUsername (w : GameState) (pid u q : String)
    (h : (w.players q).disconnected = true) :
    ((w.setUsername pid u).players q).disconnected = true :=
  disc_modifyPlayer w pid (fun p => { p with username := u }) (fun _ hp => hp) q h

theorem disc_setSessionId (w : GameState) (pid sid q : String)
    (h : (w.players q).disconnected = true) :
    ((w.setSessionId pid sid).players q).disconnected = true :=
  disc_modifyPlayer w pid (fun p => { p with sessionId := sid }) (fun _ hp => hp) q h

theorem disc_markDisconnected (w : GameState) (pid q : String)
    (h : (w.players q).disconnected = true) :
    ((w.markDisconnected pid).players q).disconnected = true :=
  disc_modifyPlayer w pid (fun p => { p with disconnected := true }) (fun _ _ => rfl) q h

theorem disc_updatePlayerState (w : GameState) (pid : String) (pos : Position)
    (rot mrot : Option ℚ) (anim q : String)
    (h : (w.players q).disconnected = true) :
    ((w.updatePlayerState pid pos rot mrot anim).players q).disconnected = true :=
  disc_modifyPlayer w pid (fun p => p.updateState pos rot mrot anim) (fun _ hp => hp) q h

theorem players_removeSession (w : GameState) (sid : String) :
    (w.removeSession sid).1.players = w.players := rfl

theorem disc_handleCreate (w : GameState) (pid n u sid : String) (now : Nat) (q : String)
    (h : (w.players q).disconnected = true) :
    ((handleCreateSession w pid n u sid now).1.players q).disconnected = true := by
  have h1 : (((if u ≠ "" then w.setUsername pid u else w)).players q).disconnected
      = true := by
    split
    · exact disc_setUsername _ _ _ _ h
    · exact h
  have h2 : ((GameSession.addPlayer (if u ≠ "" then w.setUsername pid u else w)
      (newGameSession sid n pid now) pid).2.1.players q).disconnected = true := by
    rw [players_addPlayer]
    exact h1
  exact disc_setSessionId _ _ _ _ h2

theorem disc_handleJoin (w : GameState) (pid sid u q : String)
    (h : (w.players q).disconnected = true) :
    ((handleJoinSession w pid sid u).1.players q).disconnected = true := by
  simp only [handleJoinSession]
  split
  · exact h
  · refine disc_setSessionId _ _ _ _ ?_
    rw [players_addPlayer]
    exact disc_setUsername _ _ _ _ h

theorem disc_handleStart (w : GameState) (pid sid q : String)
    (h : (w.players q).disconnected = true) :
    ((handleStartSession w pid sid).1.players q).disconnected = true := by
  simp only [handleStartSession]
  split
  · exact h
  · split
    · exact h
    · exact h

theorem disc_handleUpdate (w : GameState) (pid : String) (pos : Position)
    (rot mrot : Option ℚ) (anim q : String)
    (h : (w.players q).disconnected = true) :
    ((handleUpdate w pid pos rot mrot anim).1.players q).disconnected = true := by
  simp only [handleUpdate]
  split
  · exact disc_updatePlayerState _ _ _ _ _ _ _ h
  · exact disc_updatePlayerState _ _ _ _ _ _ _ h

theorem disc_handleSound (w : GameState) (pid st : String) (pos : Position) (q : String)
    (h : (w.players q).disconnected = true) :
    ((handleSound w pid st pos).1.players q).disconnected = true := by
  simp only [handleSound]
  split
  · exact h
  · exact h

theorem disc_handleDisconnect (w : GameState) (pid q : String)
    (h : (w.players q).disconnected = true) :
    ((handleDisconnect w pid).1.players q).disconnected = true := by
  simp only [handleDisconnect]
  split
  · exact h
  · split
    · split
      · rw [players_removeSession, players_removePlayer]
        exact disc_markDisconnected _ _ _ h
      · rw [players_removePlayer]
        exact disc_markDisconnected _ _ _ h
    · exact disc_markDisconnected _ _ _ h

theorem disc_mono_step (w : GameState) (op : ServerOp) (q : String)
    (h : (w.players q).disconnected = true) :
    (((stepWorld w op).1).players q).disconnected = true := by
  cases op with
  | message pid m =>
    cases m with
    | listSessions => exact h
    | createSession n u sid now => exact disc_handleCreate w pid n u sid now q h
    | joinSession sid u => exact disc_handleJoin w pid sid u q h
    | startSession sid => exact disc_handleStart w pid sid q h
    | update pos2 rot mrot anim => exact disc_handleUpdate w pid pos2 rot mrot anim q h
    | sound st pos2 => exact disc_handleSound w pid st pos2 q h
  | disconnect pid => exact disc_handleDisconnect w pid q h

/-- C7: the disconnected flag only ever goes from false to true (no server
operation resets it), and a second disconnect signal for an already
disconnected player is a no-op: the world is unchanged and no message is
sent. -/
theorem disconnect_monotone_idempotent :
    (∀ (w : GameState) (op : ServerOp) (q : String),
      (w.players q).disconnected = true →
      (((stepWorld w op).1).players q).disconnected = true)
    ∧ ∀ (w : GameState) (playerID : String),
      (w.players playerID).disconnected = true →
      handleDisconnect w playerID = (w, []) := by
  refine ⟨disc_mono_step, ?_⟩
  intro w pid h
  simp only [handleDisconnect]
  rw [if_pos h]

/-- C7 witness: a concrete world whose players are all disconnected. -/
theorem disconnect_monotone_idempotent_witness :
    (sampleDownWorld.players "a").disconnected = true
    ∧ (((stepWorld sampleDownWorld
        (ServerOp.message "b" ClientMessage.listSessions)).1).players "a").disconnected = true
    ∧ handleDisconnect sampleDownWorld "a" = (sampleDownWorld, []) :=
  ⟨rfl, disconnect_monotone_idempotent.1 _ _ _ rfl,
   disconnect_monotone_idempotent.2 _ _ rfl⟩

theorem getCellKey_update_fields (g : Grid) (cells2 : CellKey → Finset String)
    (pcells2 : String → Option CellKey) (pos : Position) :
    (Grid.mk g.cellSize g.viewDistance cells2 pcells2).getCellKey pos = g.getCellKey pos := rfl

theorem getCellKey_update_fun (g : Grid) (cells2 : CellKey → Finset String)
    (pcells2 : String → Option CellKey) :
    (Grid.mk g.cellSize g.viewDistance cells2 pcells2).getCellKey = g.getCellKey := rfl

theorem gridInv_step (g : Grid) (f : String → Option Position) (op : GridOp)
    (h : GridInv g f) : GridInv (g.applyOp op) (reportStep f op) := by
  obtain ⟨hpc, hcells⟩ := h
  cases op with
  | upd p pos =>
    simp only [Grid.applyOp, Grid.updatePlayerPosition]
    split
    · rename_i oldCell heq
      obtain ⟨oldPos, hfp, hoc⟩ := Option.map_eq_some'.1 ((hpc p).symm.trans heq)
      split
      · rename_i hcc
        constructor
        · intro q
          simp only [reportStep]
          by_cases hqp : p = q
          · subst hqp
            simp [getCellKey_update_fields, getCellKey_update_fun, heq, hcc]
          · simp [getCellKey_update_fields, getCellKey_update_fun, hqp, hpc q]
        · intro q c
          simp only [reportStep]
          by_cases hqp : p = q
          · subst hqp
            simp only [if_pos rfl]
            rw [hcells p c]
            simp [getCellKey_update_fields, getCellKey_update_fun, hfp, hoc, hcc]
          · simp only [if_neg hqp]
            exact hcells q c
      · rename_i hcc
        constructor
        · intro q
          simp only [reportStep]
          by_cases hqp : p = q
          · subst hqp
            simp [getCellKey_update_fields, getCellKey_update_fun]
          · have hqp2 : q ≠ p := fun hh => hqp hh.symm
            simp [getCellKey_update_fields, getCellKey_update_fun, hqp, hqp2, hpc q]
        · intro q c
          simp only [reportStep]
          by_cases hqp : p = q
          · subst hqp
            simp only [if_pos rfl]
            by_cases hc1 : c = oldCell
            · subst hc1
              simp [getCellKey_update_fields, getCellKey_update_fun, Finset.mem_erase, hcc, hoc]
            · by_cases hc2 : c = g.getCellKey pos
              · subst hc2
                simp [getCellKey_update_fields, getCellKey_update_fun, hc1, Finset.mem_insert]
              · simp [getCellKey_update_fields, getCellKey_update_fun, hc1, hc2, hcells p c, hfp, hoc]
          · have hqp2 : q ≠ p := fun hh => hqp hh.symm
            simp only [if_neg hqp]
            by_cases hc1 : c = oldCell
            · subst hc1
              simp [getCellKey_update_fields, getCellKey_update_fun, Finset.mem_erase, hqp2, hcells q c]
            · by_cases hc2 : c = g.getCellKey pos
              · subst hc2
                simp [getCellKey_update_fields, getCellKey_update_fun, hc1, Finset.mem_insert, hqp2, hcells q (g.getCellKey pos)]
              · simp [getCellKey_update_fields, getCellKey_update_fun, hc1, hc2, hcells q c]
    · rename_i heq
      have hfp : f p = none := Option.map_eq_none'.1 ((hpc p).symm.trans heq)
      constructor
      · intro q
        simp only [reportStep]
        by_cases hqp : p = q
        · subst hqp
          simp [getCellKey_update_fields, getCellKey_update_fun]
        · have hqp2 : q ≠ p := fun hh => hqp hh.symm
          simp [getCellKey_update_fields, getCellKey_update_fun, hqp, hqp2, hpc q]
      · intro q c
        simp only [reportStep]
        by_cases hqp : p = q
        · subst hqp
          simp only [if_pos rfl]
          by_cases hc2 : c = g.getCellKey pos
          · subst hc2
            simp [getCellKey_update_fields, getCellKey_update_fun, Finset.mem_insert]
          · simp [getCellKey_update_fields, getCellKey_update_fun, hc2, hcells p c, hfp]
        · have hqp2 : q ≠ p := fun hh => hqp hh.symm
          simp only [if_neg hqp]
          by_cases hc2 : c = g.getCellKey pos
          · subst hc2
            simp [getCellKey_update_fields, getCellKey_update_fun, Finset.mem_insert, hqp2, hcells q (g.getCellKey pos)]
          · simp [getCellKey_update_fields, getCellKey_update_fun, hc2, hcells q c]
  | rem p =>
    simp only [Grid.applyOp, Grid.removePlayer]
    split
    · rename_i cell heq
      obtain ⟨pos0, hfp, hoc⟩ := Option.map_eq_some'.1 ((hpc p).symm.trans heq)
      constructor
      · intro q
        simp only [reportStep]
        by_cases hqp : p = q
        · subst hqp
          simp [getCellKey_update_fields, getCellKey_update_fun]
        · have hqp2 : q ≠ p := fun hh => hqp hh.symm
          simp [getCellKey_update_fields, getCellKey_update_fun, hqp, hqp2, hpc q]
      · intro q c
        simp only [reportStep]
        by_cases hqp : p = q
        · subst hqp
          simp only [if_pos rfl]
          by_cases hc1 : c = cell
          · subst hc1
            simp [getCellKey_update_fields, getCellKey_update_fun, Finset.mem_erase]
          · simp [getCellKey_update_fields, getCellKey_update_fun, hc1, hcells p c, hfp, hoc]
        · have hqp2 : q ≠ p := fun hh => hqp hh.symm
          simp only [if_neg hqp]
          by_cases hc1 : c = cell
          · subst hc1
            simp [getCellKey_update_fields, getCellKey_update_fun, Finset.mem_erase, hqp2, hcells q c]
          · simp [getCellKey_update_fields, getCellKey_update_fun, hc1, hcells q c]
    · rename_i heq
      have hfp : f p = none := Option.map_eq_none'.1 ((hpc p).symm.trans heq)
      constructor
      · intro q
        simp only [reportStep]
        by_cases hqp : p = q
        · subst hqp
          simp [getCellKey_update_fields, getCellKey_update_fun, heq, hfp]
        · simp [getCellKey_update_fields, getCellKey_update_fun, hqp, hpc q]
      · intro q c
        simp only [reportStep]
        by_cases hqp : p = q
        · subst hqp
          simp [getCellKey_update_fields, getCellKey_update_fun, hcells p c, hfp]
        · simp [getCellKey_update_fields, getCellKey_update_fun, hqp, hcells q c]

theorem gridInv_applyOps (ops : List GridOp) :
    ∀ (g : Grid) (f : String → Option Position), GridInv g f →
      GridInv (g.applyOps ops) (reports f ops) := by
  induction ops with
  | nil => intro g f h; exact h
  | cons op rest ih =>
    intro g f h
    exact ih _ _ (gridInv_step g f op h)

theorem lastReport_eq_reports (ops : List GridOp) (q : String) :
    lastReport ops q = reports (fun _ => none) ops q := by
  suffices h : ∀ (f : String → Option Position) (acc : Option Position), acc = f q →
      List.foldl (fun acc2 op => match op with
        | GridOp.upd p pos => if p = q then some pos else acc2
        | GridOp.rem p => if p = q then none else acc2) acc ops = reports f ops q by
    exact h _ none rfl
  induction ops with
  | nil =>
    intro f acc h
    simpa [reports] using h
  | cons op rest ih =>
    intro f acc h
    cases op with
    | upd p pos =>
      simp only [List.foldl]
      exact ih (reportStep f (GridOp.upd p pos)) _ (by simp [reportStep, h])
    | rem p =>
      simp only [List.foldl]
      exact ih (reportStep f (GridOp.rem p)) _ (by simp [reportStep, h])

theorem cellSize_applyOps (ops : List GridOp) :
    ∀ g : Grid, (g.applyOps ops).cellSize = g.cellSize := by
  induction ops with
  | nil => intro g; rfl
  | cons op rest ih =>
    intro g
    rw [show g.applyOps (op :: rest) = (g.applyOp op).applyOps rest from rfl, ih]
    cases op with
    | upd p pos =>
      simp only [Grid.applyOp, Grid.updatePlayerPosition]
      split
      · split <;> rfl
      · rfl
    | rem p =>
      simp only [Grid.applyOp, Grid.removePlayer]
      split <;> rfl

/-- C5: starting from a fresh grid, after any sequence of position updates
and removals each tracked player is recorded in the inverse mapping at the
cell obtained by flooring its last reported x and z by the cell size, is a
member of exactly that cell set and of no other, and a removed or untracked
player is in neither mapping; moreover an update that leaves the cell
unchanged leaves the grid exactly as it was. -/
theorem grid_invariant (cellSize viewDistance : ℚ) (ops : List GridOp) (q : String) :
    (((newGrid cellSize viewDistance).applyOps ops).playerCells q
        = (lastReport ops q).map
            (fun pos => CellKey.mk ⌊pos.x / cellSize⌋ ⌊pos.z / cellSize⌋)
      ∧ ∀ c, q ∈ ((newGrid cellSize viewDistance).applyOps ops).cells c ↔
          ∃ pos, lastReport ops q = some pos
            ∧ c = CellKey.mk ⌊pos.x / cellSize⌋ ⌊pos.z / cellSize⌋)
    ∧ ∀ (g : Grid) (playerID : String) (pos : Position),
        g.playerCells playerID = some (g.getCellKey pos) →
        g.updatePlayerPosition playerID pos = g := by
  have hbase : GridInv (newGrid cellSize viewDistance) (fun _ => none) := by
    constructor
    · intro q2
      rfl
    · intro q2 c
      simp [newGrid]
  obtain ⟨hpc, hcells⟩ := gridInv_applyOps ops _ _ hbase
  have hck : ∀ pos : Position,
      ((newGrid cellSize viewDistance).applyOps ops).getCellKey pos
        = CellKey.mk ⌊pos.x / cellSize⌋ ⌊pos.z / cellSize⌋ := by
    intro pos
    unfold Grid.getCellKey
    rw [cellSize_applyOps]
    rfl
  refine ⟨⟨?_, ?_⟩, ?_⟩
  · rw [hpc q, ← lastReport_eq_reports]
    cases lastReport ops q <;> simp [hck]
  · intro c
    rw [hcells q c, ← lastReport_eq_reports]
    constructor
    · rintro ⟨pos, h1, h2⟩
      exact ⟨pos, h1, by rw [h2, hck]⟩
    · rintro ⟨pos, h1, h2⟩
      exact ⟨pos, h1, by rw [h2, hck]⟩
  · intro g2 playerID pos hsame
    simp only [Grid.updatePlayerPosition]
    split
    · rename_i oldCell heq
      split
      · rfl
      · rename_i hcc
        rw [heq] at hsame
        exact absurd (Option.some_inj.1 hsame) hcc
    · rename_i heq
      rw [heq] at hsame
      exact absurd hsame (by simp)

/-- C5 witness: updating a tracked player with a position in its current cell
returns the grid unchanged. -/
theorem grid_invariant_witness :
    sampleGrid.playerCells "a" = some (sampleGrid.getCellKey { x := 0, y := 5, z := 0 })
    ∧ sampleGrid.updatePlayerPosition "a" { x := 0, y := 5, z := 0 } = sampleGrid :=
  ⟨by simp [sampleGrid, Grid.getCellKey],
   (grid_invariant 50 100 [] "a").2 sampleGrid "a" { x := 0, y := 5, z := 0 }
     (by simp [sampleGrid, Grid.getCellKey])⟩

theorem mem_offsetRange (r dx : ℤ) : dx ∈ offsetRange r ↔ -r ≤ dx ∧ dx ≤ r := by
  unfold offsetRange
  constructor
  · intro h
    obtain ⟨i, hi, rfl⟩ := List.mem_map.1 h
    rw [List.mem_range] at hi
    omega
  · intro h
    refine List.mem_map.2 ⟨(dx + r).toNat, ?_, ?_⟩
    · rw [List.mem_range]
      omega
    · omega

theorem abs_le_of_sq_le (a v : ℚ) (hv : 0 ≤ v) (h : a ^ 2 ≤ v ^ 2) : |a| ≤ v := by
  rcases abs_cases a with ⟨he, _⟩ | ⟨he, _⟩ <;> rw [he] <;> nlinarith

theorem floor_div_abs_le (cs a b v : ℚ) (hcs : 0 < cs) (h : |a - b| ≤ v) :
    |⌊a / cs⌋ - ⌊b / cs⌋| ≤ ⌈v / cs⌉ := by
  rw [abs_le] at h
  have h1 : a / cs ≤ b / cs + (⌈v / cs⌉ : ℚ) := by
    have ha : a / cs ≤ (b + v) / cs := by
      gcongr
      linarith [h.2]
    have hb : (b + v) / cs = b / cs + v / cs := by ring
    linarith [Int.le_ceil (v / cs)]
  have h2 : b / cs - (⌈v / cs⌉ : ℚ) ≤ a / cs := by
    have ha : (b - v) / cs ≤ a / cs := by
      gcongr
      linarith [h.1]
    have hb : (b - v) / cs = b / cs - v / cs := by ring
    linarith [Int.le_ceil (v / cs)]
  rw [abs_le]
  constructor
  · have hf := Int.floor_le_floor h2
    rw [Int.floor_sub_int] at hf
    omega
  · have hf := Int.floor_le_floor h1
    rw [Int.floor_add_int] at hf
    omega

theorem nodup_getNearbyPlayers (g : Grid) (pid : String) (pos : Position) :
    (g.getNearbyPlayers pid pos).Nodup := by
  unfold Grid.getNearbyPlayers
  split
  · exact List.nodup_nil
  · exact List.nodup_dedup _

theorem mem_getNearbyPlayers (g : Grid) (pid : String) (pos : Position) (c : CellKey)
    (hc : g.playerCells pid = some c) (q : String) :
    q ∈ g.getNearbyPlayers pid pos ↔
      q ≠ pid ∧ ∃ c2 : CellKey, |c2.X - c.X| ≤ g.cellRadius ∧ |c2.Z - c.Z| ≤ g.cellRadius
        ∧ q ∈ g.cells c2 := by
  unfold Grid.getNearbyPlayers
  split
  · rename_i heq
    rw [hc] at heq
    simp at heq
  · rename_i cell heq
    rw [hc] at heq
    obtain rfl : c = cell := Option.some_inj.1 heq
    simp only [List.mem_dedup, List.mem_filter, List.mem_flatMap, mem_offsetRange,
      idList, Finset.mem_sort, decide_eq_true_eq]
    constructor
    · rintro ⟨⟨dx, ⟨hdx1, hdx2⟩, dz, ⟨hdz1, hdz2⟩, hq⟩, hne⟩
      refine ⟨hne, ⟨{ X := c.X + dx, Z := c.Z + dz }, ?_, ?_, hq⟩⟩
      · rw [show c.X + dx - c.X = dx by ring, abs_le]
        exact ⟨hdx1, hdx2⟩
      · rw [show c.Z + dz - c.Z = dz by ring, abs_le]
        exact ⟨hdz1, hdz2⟩
    · rintro ⟨hne, c2, h1, h2, hq⟩
      rw [abs_le] at h1 h2
      refine ⟨⟨c2.X - c.X, ⟨h1.1, h1.2⟩, c2.Z - c.Z, ⟨h2.1, h2.2⟩, ?_⟩, hne⟩
      simpa [show c.X + (c2.X - c.X) = c2.X by ring,
        show c.Z + (c2.Z - c.Z) = c2.Z by ring] using hq

/-- C4: given a tracked player, GetNearbyPlayers returns exactly the other
IDs, without duplicates, registered in cells whose X and Z indices differ
from the player's current cell by at most the ceiling of viewDistance over
cellSize; consequently any other player registered in the cell of a position
within Euclidean view distance of the caller's registered position is
included. -/
theorem getNearbyPlayers_spec (g : Grid) (pid : String) (pos : Position) (c : CellKey)
    (hc : g.playerCells pid = some c) :
    (g.getNearbyPlayers pid pos).Nodup
    ∧ (∀ q, q ∈ g.getNearbyPlayers pid pos ↔
        q ≠ pid ∧ ∃ c2 : CellKey, |c2.X - c.X| ≤ g.cellRadius ∧ |c2.Z - c.Z| ≤ g.cellRadius
          ∧ q ∈ g.cells c2)
    ∧ ∀ (q : String) (posP posQ : Position),
        0 < g.cellSize → 0 ≤ g.viewDistance →
        c = g.getCellKey posP →
        q ∈ g.cells (g.getCellKey posQ) →
        q ≠ pid →
        (posP.x - posQ.x) ^ 2 + (posP.z - posQ.z) ^ 2 ≤ g.viewDistance ^ 2 →
        q ∈ g.getNearbyPlayers pid pos := by
  refine ⟨nodup_getNearbyPlayers g pid pos, mem_getNearbyPlayers g pid pos c hc, ?_⟩
  intro q posP posQ hcs hvd hcp hqcell hne hdist
  rw [mem_getNearbyPlayers g pid pos c hc]
  subst hcp
  refine ⟨hne, ⟨g.getCellKey posQ, ?_, ?_, hqcell⟩⟩
  · have habs : |posQ.x - posP.x| ≤ g.viewDistance :=
      abs_le_of_sq_le _ _ hvd (by nlinarith [sq_nonneg (posP.z - posQ.z)])
    exact floor_div_abs_le g.cellSize posQ.x posP.x g.viewDistance hcs habs
  · have habs : |posQ.z - posP.z| ≤ g.viewDistance :=
      abs_le_of_sq_le _ _ hvd (by nlinarith [sq_nonneg (posP.x - posQ.x)])
    exact floor_div_abs_le g.cellSize posQ.z posP.z g.viewDistance hcs habs

/-- C4 witness: two players registered at the origin see each other. -/
theorem getNearbyPlayers_spec_witness :
    sampleGrid.playerCells "a" = some { X := 0, Z := 0 }
    ∧ "b" ∈ sampleGrid.getNearbyPlayers "a" { x := 0, y := 0, z := 0 } :=
  ⟨by simp [sampleGrid],
   (getNearbyPlayers_spec sampleGrid "a" { x := 0, y := 0, z := 0 } { X := 0, Z := 0 }
      (by simp [sampleGrid])).2.2 "b" { x := 0, y := 0, z := 0 } { x := 0, y := 0, z := 0 }
      (by decide) (by decide) (by simp [Grid.getCellKey, sampleGrid])
      (by simp [sampleGrid, Grid.getCellKey]) (by decide) (by norm_num [sampleGrid])⟩

end GameRelay
